import Mathlib

/-
  Verification development for the price-prediction post-processing pipeline
  (src/src/experiment/utils.py).

  The Python module is embedded shallowly:
    * transform-family identifiers imported from the configuration module are
      an inductive type (they are distinct opaque names),
    * CSV artifacts on disk are `CsvFile` values held in a `Store`
      (a function from the addressing tuple to an optional file),
    * darts `TimeSeries` values are lists of (timestamp, value) pairs,
    * fallible Python code returns `Except PyErr`,
    * the external collaborators darts `rmse` and the price-history reader
      are parameters of the embedded functions.
-/

namespace PricePrediction

/-- Modelled from the spec: the closed catalog of transform-family identifiers
defined in the configuration module (which is not under src/); they are
distinct opaque names used to address the artifact store and to branch in
`value_cols` selection and conversion dispatch. -/
inductive Model
  | log_returns_model
  | raw_model
  | extended_model
  | scaled_model
  | log_to_raw_model
  | scaled_to_raw_model
  | extended_to_raw_model
  | scaled_to_log_model
  | raw_to_log_model
  deriving DecidableEq

/-- A CSV artifact as parsed by pandas: the name of its time column, the time
column's entries, and the remaining value columns (name, entries). -/
structure CsvFile where
  timeName : String
  times : List Int
  valueColumns : List (String × List ℝ)

/-- A darts TimeSeries: an ordered sequence of (timestamp, value) pairs. -/
structure TS where
  points : List (Int × ℝ)

/-- Python runtime faults that the embedded code can raise. -/
inductive PyErr
  | typeErrorKw (fn kw : String)
  | fileNotFound
  | unboundLocalErr (name : String)
  | keyErr (col : String)
  | valueErr
  | indexErr
  | notIterable
  deriving DecidableEq

/-- The Forecast Store: maps (transform family, forecasting model, asset,
resolution, fold index) to the optional prediction / test artifact, modelling
the directory layout `<root>/<family>/<model>/<coin>/<tf>/pred_<i>.csv`. -/
structure Store where
  predFile : Model → String → String → String → Nat → Option CsvFile
  testFile : Model → String → String → String → Nat → Option CsvFile

/-- Column lookup in a parsed CSV (pandas column access). -/
def lookupCol (cols : List (String × List ℝ)) (name : String) : Option (List ℝ) :=
  (cols.find? (fun c => c.1 == name)).map (fun c => c.2)

/-- Models darts `TimeSeries.from_dataframe(df, time_col, value_cols)` for the
single-value-column calls made by the loader: the named time column must be
the dataframe's time column, and the single requested value column must be
present (a missing column is a KeyError). -/
def fromDataframe (csv : CsvFile) (timeCol : String) (valueCols : List String) :
    Except PyErr TS :=
  if csv.timeName = timeCol then
    match valueCols with
    | [col] =>
      match lookupCol csv.valueColumns col with
      | some vals =>
        if vals.length = csv.times.length then Except.ok ⟨csv.times.zip vals⟩
        else Except.error PyErr.valueErr
      | none => Except.error (PyErr.keyErr col)
    | _ => Except.error PyErr.valueErr
  else Except.error (PyErr.keyErr timeCol)

/-- Models darts `concatenate(series_list, axis=0)`: joining the folds along
the time axis in list order. -/
def concatenate (l : List TS) : TS :=
  ⟨(l.map TS.points).flatten⟩

/-- The `value_cols` selection of `get_predictions` (utils.py lines 88-97):
an if/elif chain with no else branch, so a family in neither list leaves the
variable unassigned (`none`), which raises UnboundLocalError at first use. -/
def value_cols (model : Model) : Option (List String) :=
  if model ∈ [Model.log_returns_model, Model.extended_model, Model.scaled_model,
      Model.scaled_to_log_model, Model.raw_to_log_model] then
    some ["log returns"]
  else if model ∈ [Model.raw_model, Model.extended_to_raw_model,
      Model.scaled_to_raw_model] then
    some ["close"]
  else none

/-- The fold loop of `get_predictions` (utils.py lines 99-119), over the list
of fold indices: a missing prediction file returns the sentinel (`none`); a
present prediction file is parsed (raising UnboundLocalError when `value_cols`
was never assigned), then the test file is read (pd.read_csv raises
FileNotFoundError when it is absent — only the prediction path is
existence-checked) and parsed, the per-fold RMSE appended, and the loop
continues. -/
def loadFolds (rmseFn : TS → TS → ℝ) (store : Store) (model : Model)
    (model_name coin time_frame : String) (vcols : Option (List String)) :
    List Nat → Except PyErr (Option (List TS × List TS × List ℝ))
  | [] => Except.ok (some ([], [], []))
  | period :: rest =>
    match store.predFile model model_name coin time_frame period with
    | none => Except.ok none
    | some predCsv =>
      match vcols with
      | none => Except.error (PyErr.unboundLocalErr "value_cols")
      | some cols =>
        match fromDataframe predCsv "time" cols with
        | Except.error e => Except.error e
        | Except.ok pred =>
          match store.testFile model model_name coin time_frame period with
          | none => Except.error PyErr.fileNotFound
          | some testCsv =>
            match fromDataframe testCsv "date" cols with
            | Except.error e => Except.error e
            | Except.ok test =>
              match loadFolds rmseFn store model model_name coin time_frame vcols rest with
              | Except.error e => Except.error e
              | Except.ok none => Except.ok none
              | Except.ok (some (ps, ts, rs)) =>
                Except.ok (some (pred :: ps, test :: ts, rmseFn test pred :: rs))

/-- The shaped output of `get_predictions`: either the concatenated pair or
the per-fold prediction list with only the first test series retained. -/
inductive PredOut
  | concatOut (preds : TS) (tests : TS) (rmses : List ℝ)
  | listOut (preds : List TS) (tests : TS) (rmses : List ℝ)

/-- The overall result of `get_predictions`: the `(None, None, None)`
sentinel, or a shaped output. -/
inductive GetPredResult
  | unavailable
  | out (o : PredOut)

/-- `get_predictions` (utils.py lines 58-129): select `value_cols` from the
family, run the 5-fold loop, then shape the output — concatenating when the
family is not the ensemble family and concatenation was requested, otherwise
returning the prediction list together with `tests[0]`. -/
def get_predictions (rmseFn : TS → TS → ℝ) (store : Store) (model : Model)
    (model_name coin time_frame : String) (concatenated : Bool) :
    Except PyErr GetPredResult :=
  match loadFolds rmseFn store model model_name coin time_frame (value_cols model)
      (List.range 5) with
  | Except.error e => Except.error e
  | Except.ok none => Except.ok GetPredResult.unavailable
  | Except.ok (some (preds, tests, rmses)) =>
    if model ≠ Model.extended_model ∧ concatenated = true then
      Except.ok (GetPredResult.out
        (PredOut.concatOut (concatenate preds) (concatenate tests) rmses))
    else
      match tests with
      | [] => Except.error PyErr.indexErr
      | t :: _ => Except.ok (GetPredResult.out (PredOut.listOut preds t rmses))

/-- True exactly when a loader result is the `(None, None, None)` sentinel. -/
def isUnavailable : Except PyErr GetPredResult → Bool
  | Except.ok GetPredResult.unavailable => true
  | _ => false

/-- True exactly when a loader result is a successful (non-sentinel) load. -/
def isSuccessOut : Except PyErr GetPredResult → Bool
  | Except.ok (GetPredResult.out _) => true
  | _ => false

/-- True exactly when a loader call raised a Python fault. -/
def isErr : Except PyErr GetPredResult → Bool
  | Except.error _ => true
  | _ => false

/-- The RMSE-list component of a shaped loader output. -/
def rmsesOf : PredOut → List ℝ
  | PredOut.concatOut _ _ rs => rs
  | PredOut.listOut _ _ rs => rs

/-- The per-model loop of `all_model_predictions` (utils.py lines 40-49):
call `get_predictions` for each catalog entry in order, skip a model whose
result is the sentinel, and keep (name, output) for the ones that succeeded.
A raised fault propagates and aborts the whole batch. -/
def amp_loop (rmseFn : TS → TS → ℝ) (store : Store) (model : Model)
    (coin time_frame : String) : List String → Except PyErr (List (String × PredOut))
  | [] => Except.ok []
  | model_name :: rest =>
    match get_predictions rmseFn store model model_name coin time_frame true with
    | Except.error e => Except.error e
    | Except.ok r =>
      match amp_loop rmseFn store model coin time_frame rest with
      | Except.error e => Except.error e
      | Except.ok acc =>
        match r with
        | GetPredResult.unavailable => Except.ok acc
        | GetPredResult.out o => Except.ok ((model_name, o) :: acc)

/-- `all_model_predictions` (utils.py lines 29-55): pick the catalog (the
ML-only catalog for the ensemble family, the full catalog otherwise), collect
the successful loads, and build the RMSE summary table whose columns are
exactly the collected model names. The catalogs are configuration data and
are passed in explicitly. -/
def all_model_predictions (rmseFn : TS → TS → ℝ) (store : Store)
    (all_models ml_models : List String) (model : Model) (coin time_frame : String) :
    Except PyErr (List (String × PredOut) × List (String × List ℝ)) :=
  let models := if model = Model.extended_model then ml_models else all_models
  match amp_loop rmseFn store model coin time_frame models with
  | Except.error e => Except.error e
  | Except.ok model_predictions =>
    Except.ok (model_predictions,
      model_predictions.map (fun p => (p.1, rmsesOf p.2)))

/-- The model-name list of an `all_model_predictions` result (the keys of the
per-model dictionary), when no fault was raised. -/
def modelNamesOf : Except PyErr (List (String × PredOut) × List (String × List ℝ)) →
    Option (List String)
  | Except.ok (d, _) => some (d.map Prod.fst)
  | Except.error _ => none

/-- The column names of the RMSE summary table of an `all_model_predictions`
result, when no fault was raised. -/
def tableColumnsOf : Except PyErr (List (String × PredOut) × List (String × List ℝ)) →
    Option (List String)
  | Except.ok (_, t) => some (t.map Prod.fst)
  | Except.error _ => none

/-- The parameter names of `get_predictions` (utils.py lines 58-64). -/
def get_predictions_params : List String :=
  ["model", "model_name", "coin", "time_frame", "concatenated"]

/-- The keyword-argument names used by the call to `get_predictions` inside
`log_returns_to_price` (utils.py lines 169-175). -/
def log_returns_to_price_kwargs : List String :=
  ["model", "forecasting_model", "coin", "time_frame", "concatenated"]

/-- Python keyword binding: the first keyword of the call that is not among
the callee's parameter names, which makes the call raise
`TypeError: got an unexpected keyword argument`. -/
def unexpectedKw (params kwargs : List String) : Option String :=
  kwargs.find? (fun k => !(params.contains k))

/-- The timestamps of a series, in order. -/
def tsTimes (s : TS) : List Int := s.points.map Prod.fst

/-- darts `TimeSeries.start_time()`: the first timestamp. -/
def startTime (s : TS) : Option Int := (tsTimes s).head?

/-- darts `TimeSeries.end_time()`: the last timestamp. -/
def endTime (s : TS) : Option Int := (tsTimes s).getLast?

/-- darts `TimeSeries.values()`: the values, in timestamp order. -/
def tsValues (s : TS) : List ℝ := s.points.map Prod.snd

/-- Models pandas `Index.get_loc`: the integer position of a timestamp in a
(unique) index, `none` when absent (pandas raises KeyError). -/
def get_loc (index : List Int) (t : Int) : Option Nat :=
  match index with
  | [] => none
  | x :: xs => if x = t then some 0 else (get_loc xs t).map (fun i => i + 1)

/-- Normalise one bound of a Python slice over a sequence of length `n`:
negative bounds count from the end, and bounds are clamped to `[0, n]`. -/
def pyBound (n : Nat) (i : Int) : Nat :=
  (max 0 (min (if i < 0 then i + n else i) (n : Int))).toNat

/-- Models Python positional slicing `l[a:b]` (pandas `.iloc[a:b]`): the
elements at positions `pyBound a ≤ pos < pyBound b`. -/
def pySlice {α : Type} (l : List α) (a b : Int) : List α :=
  (l.take (pyBound l.length b)).drop (pyBound l.length a)

/-- The compounding loop of `log_returns_to_price` (utils.py lines 201-205):
`close = [anchor]; for value in prediction.values(): close.append(close[-1] *
np.exp(value))` — the tail of the produced list, carrying the running last
price. -/
noncomputable def compoundFrom (c : ℝ) : List ℝ → List ℝ
  | [] => []
  | v :: vs => c * Real.exp v :: compoundFrom (c * Real.exp v) vs

/-- The full compounded price list of `log_returns_to_price`: the anchor
followed by one compounded price per forecast value. -/
noncomputable def compound (c0 : ℝ) (vs : List ℝ) : List ℝ :=
  c0 :: compoundFrom c0 vs

/-- The slice of the historical price table taken per fold by
`log_returns_to_price` (utils.py lines 194-198): locate the positions of the
forecast's start and end times, then take `price_df.iloc[start_pos - 1 :
end_pos + 1]`. A timestamp absent from the index is a KeyError. -/
def slicedPrice (price_df : List (Int × ℝ)) (prediction : TS) :
    Except PyErr (List (Int × ℝ)) :=
  match startTime prediction, endTime prediction with
  | some st, some en =>
    match get_loc (price_df.map Prod.fst) st, get_loc (price_df.map Prod.fst) en with
    | some sLoc, some eLoc =>
      Except.ok (pySlice price_df ((sLoc : Int) - 1) ((eLoc : Int) + 1))
    | _, _ => Except.error (PyErr.keyErr "get_loc")
  | _, _ => Except.error PyErr.valueErr

/-- One iteration of the per-fold conversion loop of `log_returns_to_price`
(utils.py lines 194-221): slice the price history around the forecast, seed
the compounding with the first close of the slice, build the reconstructed
dataframe on the slice's index (pandas raises ValueError when the value list
and the index disagree in length), build the ground-truth dataframe on the
same index, and drop the first (anchor) row of both. Returns the
(reconstructed prediction rows, ground-truth rows) that get written. -/
noncomputable def foldToPrice (price_df : List (Int × ℝ)) (prediction : TS) :
    Except PyErr (List (Int × ℝ) × List (Int × ℝ)) :=
  match slicedPrice price_df prediction with
  | Except.error e => Except.error e
  | Except.ok sliced =>
    match (sliced.map Prod.snd).head? with
    | none => Except.error PyErr.indexErr
    | some anchor =>
      let close := compound anchor (tsValues prediction)
      if close.length = sliced.length then
        Except.ok ((((sliced.map Prod.fst).zip close).drop 1, sliced.drop 1))
      else Except.error PyErr.valueErr

/-- One artifact written back to the Forecast Store by the inverter. -/
structure FileWrite where
  family : Model
  forecasting_model : String
  coin : String
  time_frame : String
  fold : Nat
  toPredFile : Bool
  rows : List (Int × ℝ)

/-- The write-back loop of `log_returns_to_price` (utils.py lines 194-225):
convert each fold and save `pred_<i>.csv` and `test_<i>.csv` under the target
family. -/
noncomputable def convertFolds (tm : Model) (forecasting_model coin time_frame : String)
    (price_df : List (Int × ℝ)) : List TS → Nat → Except PyErr (List FileWrite)
  | [], _ => Except.ok []
  | prediction :: rest, i =>
    match foldToPrice price_df prediction with
    | Except.error e => Except.error e
    | Except.ok (closeRows, testRows) =>
      match convertFolds tm forecasting_model coin time_frame price_df rest (i + 1) with
      | Except.error e => Except.error e
      | Except.ok ws =>
        Except.ok (⟨tm, forecasting_model, coin, time_frame, i, true, closeRows⟩ ::
          ⟨tm, forecasting_model, coin, time_frame, i, false, testRows⟩ :: ws)

/-- The external collaborators of `log_returns_to_price`: the Forecast Store
and the Price History Reader (`read_csv coin time_frame`, returning the
time-indexed close column). -/
structure Env where
  store : Store
  priceData : String → String → List (Int × ℝ)

/-- `log_returns_to_price` (utils.py lines 152-228). Its first statement is
the call `get_predictions(model=model, forecasting_model=forecasting_model,
coin=coin, time_frame=time_frame, concatenated=False)`, embedded with
Python's keyword binding: an unexpected keyword raises TypeError before the
callee runs. Were the call to return, the source family is mapped to its
target family (any other family prints a message and returns with no
writes), the price history is read, and each fold is converted and written;
iterating over a `None` prediction result would itself raise TypeError. -/
noncomputable def log_returns_to_price (rmseFn : TS → TS → ℝ) (env : Env)
    (model : Model) (forecasting_model coin time_frame : String) :
    Except PyErr (List FileWrite) :=
  match unexpectedKw get_predictions_params log_returns_to_price_kwargs with
  | some kw => Except.error (PyErr.typeErrorKw "get_predictions" kw)
  | none =>
    match get_predictions rmseFn env.store model forecasting_model coin time_frame false with
    | Except.error e => Except.error e
    | Except.ok r =>
      let dispatch : Option Model :=
        if model = Model.log_returns_model then some Model.log_to_raw_model
        else if model = Model.extended_model then some Model.extended_to_raw_model
        else if model = Model.scaled_to_log_model then some Model.scaled_to_raw_model
        else none
      match dispatch with
      | none => Except.ok []
      | some tm =>
        let price_df := env.priceData coin time_frame
        match r with
        | GetPredResult.unavailable => Except.error PyErr.notIterable
        | GetPredResult.out (PredOut.listOut preds _ _) =>
          convertFolds tm forecasting_model coin time_frame price_df preds 0
        | GetPredResult.out (PredOut.concatOut _ _ _) =>
          -- unreachable: the call passes concatenated=False, so a successful
          -- load is always shaped as a fold list
          Except.error PyErr.valueErr

/-- Modelled from the spec: the derivation of log returns from a positive
price series used to state the round-trip property
(`r_i = log (p_i / p_{i-1})`). -/
noncomputable def logReturns : List ℝ → List ℝ
  | p0 :: p1 :: rest => Real.log (p1 / p0) :: logReturns (p1 :: rest)
  | _ => []

/-! Concrete fixtures used to instantiate the theorems at concrete inputs. -/

/-- A trivial instantiation of the external darts RMSE metric, used for
concrete runs (no statement below depends on RMSE values). -/
def rmse0 : TS → TS → ℝ := fun _ _ => 0

/-- A well-formed prediction artifact for fold `p`: times `2p, 2p+1`. -/
def demoPredCsv (p : Nat) : CsvFile :=
  ⟨"time", [(2 * p : Int), (2 * p + 1 : Int)], [("log returns", [0, 0])]⟩

/-- A well-formed test artifact for fold `p`: times `2p, 2p+1`. -/
def demoTestCsv (p : Nat) : CsvFile :=
  ⟨"date", [(2 * p : Int), (2 * p + 1 : Int)], [("log returns", [0, 0])]⟩

/-- The series parsed from the fold-`p` demo artifacts. -/
def demoTS (p : Nat) : TS :=
  ⟨[((2 * p : Int), (0 : ℝ)), ((2 * p + 1 : Int), (0 : ℝ))]⟩

/-- A store holding all five fold pairs for every tuple. -/
def demoStore : Store :=
  ⟨fun _ _ _ _ p => if p < 5 then some (demoPredCsv p) else none,
   fun _ _ _ _ p => if p < 5 then some (demoTestCsv p) else none⟩

/-- A store holding every prediction artifact but no test artifact. -/
def demoStoreNoTest : Store :=
  ⟨fun _ _ _ _ p => if p < 5 then some (demoPredCsv p) else none,
   fun _ _ _ _ _ => none⟩

/-- An empty store: no artifacts at all. -/
def demoStoreNoPred : Store :=
  ⟨fun _ _ _ _ _ => none, fun _ _ _ _ _ => none⟩

/-- A store where the forecasting model named "B" has no artifacts and every
other model has all five fold pairs. -/
def demoStoreSkip : Store :=
  ⟨fun _ mn _ _ p =>
      if mn == "B" then none else if p < 5 then some (demoPredCsv p) else none,
   fun _ _ _ _ p => if p < 5 then some (demoTestCsv p) else none⟩

/-- A four-row historical price table at times 0..3. -/
def demoPriceDf : List (Int × ℝ) := [(0, 100), (1, 102), (2, 101), (3, 105)]

/-- A fold forecast over times 1..2 with zero log returns. -/
def demoPredFold : TS := ⟨[(1, 0), (2, 0)]⟩

/-- The reconstructed prediction rows `foldToPrice` produces on the demo
fold. -/
noncomputable def demoFoldPred : List (Int × ℝ) :=
  [(1, 100 * Real.exp 0), (2, 100 * Real.exp 0 * Real.exp 0)]

/-- The ground-truth rows `foldToPrice` produces on the demo fold. -/
def demoFoldTest : List (Int × ℝ) := [(1, 102), (2, 101)]

/-- A demo environment for the inverter: the full store and the demo price
history for every asset/resolution. -/
def demoEnv : Env := ⟨demoStore, fun _ _ => demoPriceDf⟩

/-! Claim theorems. -/

/-- Claim C1: for every input, the call from `log_returns_to_price` into
`get_predictions` uses the keyword argument name `forecasting_model`, while
`get_predictions`'s parameter is named `model_name`; therefore every
invocation of `log_returns_to_price` raises a TypeError before any family
mapping, price loading, or file writing occurs, so the inverter can never
produce output. -/
theorem C1_call_always_raises_type_error (rmseFn : TS → TS → ℝ) (env : Env)
    (model : Model) (forecasting_model coin time_frame : String) :
    "forecasting_model" ∈ log_returns_to_price_kwargs ∧
    "forecasting_model" ∉ get_predictions_params ∧
    "model_name" ∈ get_predictions_params ∧
    log_returns_to_price rmseFn env model forecasting_model coin time_frame =
      Except.error (PyErr.typeErrorKw "get_predictions" "forecasting_model") :=
  ⟨by decide, by decide, by decide, rfl⟩

/-- Claim C3, evaluated at a failing input: requesting a conversion for the
unsupported raw family does not report an unsupported conversion and return
cleanly — the invocation raises TypeError at the `get_predictions` call,
before the family dispatch runs. -/
theorem C3_unsupported_family_raises_instead :
    log_returns_to_price rmse0 demoEnv Model.raw_model "ARIMA" "BTC" "1d" =
      Except.error (PyErr.typeErrorKw "get_predictions" "forecasting_model") :=
  rfl

/-- The compounding loop inverts log-return derivation: seeded with the true
previous price, walking derived log returns reproduces the original series. -/
theorem compoundFrom_logReturns : ∀ (ps : List ℝ) (p0 : ℝ), 0 < p0 →
    (∀ x ∈ ps, 0 < x) → compoundFrom p0 (logReturns (p0 :: ps)) = ps
  | [], _, _, _ => rfl
  | p1 :: rest, p0, h0, hps => by
    have h1 : 0 < p1 := hps p1 (List.mem_cons_self _ _)
    have key : p0 * Real.exp (Real.log (p1 / p0)) = p1 := by
      rw [Real.exp_log (div_pos h1 h0), mul_comm, div_mul_cancel₀ _ (ne_of_gt h0)]
    show compoundFrom p0 (Real.log (p1 / p0) :: logReturns (p1 :: rest)) = p1 :: rest
    rw [compoundFrom, key,
      compoundFrom_logReturns rest p1 h1 (fun x hx => hps x (List.mem_cons_of_mem _ hx))]

/-- The compounding loop produces one value per log return. -/
theorem compoundFrom_length (vs : List ℝ) : ∀ c : ℝ, (compoundFrom c vs).length = vs.length := by
  induction vs with
  | nil => intro c; rfl
  | cons v vs ih => intro c; simp [compoundFrom, ih]

/-- Claim C7: for any anchor price `p0 > 0` and log returns derived from a
positive price series, compounding `next = prev * exp r` seeded by the anchor
reconstructs the original series exactly (real arithmetic), producing one
more value than the forecast length (the anchor itself). -/
theorem C7_compound_round_trip (p0 : ℝ) (ps : List ℝ) (h0 : 0 < p0)
    (hps : ∀ x ∈ ps, 0 < x) :
    compound p0 (logReturns (p0 :: ps)) = p0 :: ps ∧
    (compound p0 (logReturns (p0 :: ps))).length =
      (logReturns (p0 :: ps)).length + 1 := by
  constructor
  · show p0 :: compoundFrom p0 (logReturns (p0 :: ps)) = p0 :: ps
    rw [compoundFrom_logReturns ps p0 h0 hps]
  · show (p0 :: compoundFrom p0 (logReturns (p0 :: ps))).length = _
    simp [compoundFrom_length]

/-- Witness for C7 at the concrete positive price series `[1, 2]`. -/
theorem C7_compound_round_trip_witness :
    compound 1 (logReturns [(1 : ℝ), 2]) = [1, 2] :=
  (C7_compound_round_trip 1 [2] one_pos
    (by intro x hx; rw [List.mem_singleton] at hx; subst hx; exact two_pos)).1

/-- A position returned by `get_loc` is a valid position of the index. -/
theorem get_loc_lt_length : ∀ (l : List Int) (t : Int) (i : Nat),
    get_loc l t = some i → i < l.length
  | [], _, _, h => by simp [get_loc] at h
  | x :: xs, t, i, h => by
    rw [get_loc] at h
    by_cases hx : x = t
    · rw [if_pos hx] at h
      injection h with h
      simp only [List.length_cons]
      omega
    · rw [if_neg hx] at h
      cases hg : get_loc xs t with
      | none => rw [hg] at h; simp at h
      | some j =>
        rw [hg] at h
        simp at h
        have := get_loc_lt_length xs t j hg
        simp only [List.length_cons]
        omega

/-- A nonnegative in-range Python slice bound is the bound itself. -/
theorem pyBound_coe (n a : Nat) (ha : a ≤ n) : pyBound n (a : Int) = a := by
  unfold pyBound
  rw [if_neg (by omega), min_eq_left (by omega), max_eq_right (by omega)]
  omega

/-- The rows produced by a successful `foldToPrice` are the slice's rows with
the anchor dropped: the ground truth is exactly `sliced.drop 1`, and the
reconstructed prediction carries exactly the same timestamps. -/
theorem foldToPrice_shape (price_df : List (Int × ℝ)) (prediction : TS)
    (sliced : List (Int × ℝ)) (hsl : slicedPrice price_df prediction = Except.ok sliced)
    (p t : List (Int × ℝ)) (hft : foldToPrice price_df prediction = Except.ok (p, t)) :
    t = sliced.drop 1 ∧ p.map Prod.fst = (sliced.map Prod.fst).drop 1 ∧
    p.length = sliced.length - 1 ∧ t.length = sliced.length - 1 := by
  unfold foldToPrice at hft
  rw [hsl] at hft
  simp only [] at hft
  cases hh : (sliced.map Prod.snd).head? with
  | none => rw [hh] at hft; simp at hft
  | some anchor =>
    rw [hh] at hft
    simp only [] at hft
    by_cases hl : (compound anchor (tsValues prediction)).length = sliced.length
    · rw [if_pos hl] at hft
      simp only [Except.ok.injEq, Prod.mk.injEq] at hft
      obtain ⟨hp, ht⟩ := hft
      have hlenfst : (sliced.map Prod.fst).length ≤
          (compound anchor (tsValues prediction)).length := by
        simp [hl]
      refine ⟨ht.symm, ?_, ?_, ?_⟩
      · rw [← hp, List.map_drop, List.map_fst_zip _ _ hlenfst]
      · rw [← hp]
        simp only [List.length_drop, List.length_zip, List.length_map, hl]
        omega
      · rw [← ht]
        simp
    · rw [if_neg hl] at hft
      simp at hft

/-- Claim C8: for every fold successfully processed by the conversion body of
`log_returns_to_price`, the reconstructed prediction rows and the
ground-truth rows have equal length and identical timestamp lists (both built
on the same sliced index with the first anchor row dropped). -/
theorem C8_outputs_row_aligned (price_df : List (Int × ℝ)) (prediction : TS)
    (p t : List (Int × ℝ)) (hft : foldToPrice price_df prediction = Except.ok (p, t)) :
    p.length = t.length ∧ p.map Prod.fst = t.map Prod.fst := by
  cases hsl : slicedPrice price_df prediction with
  | error e => unfold foldToPrice at hft; rw [hsl] at hft; simp at hft
  | ok sliced =>
    obtain ⟨ht, hpf, hpl, htl⟩ := foldToPrice_shape price_df prediction sliced hsl p t hft
    constructor
    · rw [hpl, htl]
    · rw [hpf, ht, List.map_drop]

/-- Witness for C8: the demo fold and price table, where both outputs are the
two rows at times 1 and 2. -/
theorem C8_outputs_row_aligned_witness :
    foldToPrice demoPriceDf demoPredFold = Except.ok (demoFoldPred, demoFoldTest) ∧
    demoFoldPred.length = demoFoldTest.length ∧
    demoFoldPred.map Prod.fst = demoFoldTest.map Prod.fst := by
  have h : foldToPrice demoPriceDf demoPredFold = Except.ok (demoFoldPred, demoFoldTest) := by
    rfl
  exact ⟨h, C8_outputs_row_aligned demoPriceDf demoPredFold demoFoldPred demoFoldTest h⟩

/-- Claim C4 counterexample: on the four-row price table at times 0..3 with a
forecast over times 1..2, the slice is rows 0..2 — the row one past the
forecast end (time 3) is NOT included, contradicting "to exactly one row
after the forecast's end-time row, inclusive". -/
theorem C4_counterexample :
    slicedPrice demoPriceDf demoPredFold =
      Except.ok [((0 : Int), (100 : ℝ)), (1, 102), (2, 101)] ∧
    [((0 : Int), (100 : ℝ)), (1, 102), (2, 101)].map Prod.fst ≠ [0, 1, 2, 3] :=
  ⟨rfl, by decide⟩

/-- Claim C4 as amended: the slice spans from exactly one row before the
forecast's start-time row to the forecast's end-time row inclusive (the +1
on the end position compensates for the exclusive upper bound of positional
slicing), and after the anchor row is dropped no row before the anchor or
after the forecast end appears in either output series. -/
theorem C4_slice_bounds (price_df : List (Int × ℝ)) (prediction : TS)
    (st en : Int) (s e : Nat)
    (hst : startTime prediction = some st) (hen : endTime prediction = some en)
    (hs : get_loc (price_df.map Prod.fst) st = some s)
    (he : get_loc (price_df.map Prod.fst) en = some e)
    (h1 : 1 ≤ s) (hse : s ≤ e)
    (p t : List (Int × ℝ)) (hft : foldToPrice price_df prediction = Except.ok (p, t)) :
    slicedPrice price_df prediction =
      Except.ok ((price_df.take (e + 1)).drop (s - 1)) ∧
    t = (price_df.take (e + 1)).drop s ∧
    p.map Prod.fst = ((price_df.take (e + 1)).drop s).map Prod.fst := by
  have hel : e < price_df.length := by
    have := get_loc_lt_length _ _ _ he
    simpa using this
  have hsl : slicedPrice price_df prediction =
      Except.ok ((price_df.take (e + 1)).drop (s - 1)) := by
    unfold slicedPrice
    rw [hst, hen]
    simp only []
    rw [hs, he]
    simp only []
    congr 1
    unfold pySlice
    have ha : ((s : Int) - 1) = ((s - 1 : Nat) : Int) := by omega
    have hb : ((e : Int) + 1) = ((e + 1 : Nat) : Int) := by omega
    rw [ha, hb, pyBound_coe _ _ (by omega), pyBound_coe _ _ (by omega)]
  obtain ⟨ht, hpf, _, _⟩ := foldToPrice_shape price_df prediction _ hsl p t hft
  have hdrop : ((price_df.take (e + 1)).drop (s - 1)).drop 1 =
      (price_df.take (e + 1)).drop s := by
    rw [List.drop_drop]
    congr 1
    omega
  refine ⟨hsl, ht.trans hdrop, ?_⟩
  rw [hpf, ← List.map_drop, hdrop]

/-- Witness for C4 as amended, on the demo price table and fold: start row 1,
end row 2, slice rows 0..2, outputs rows 1..2. -/
theorem C4_slice_bounds_witness :
    slicedPrice demoPriceDf demoPredFold =
      Except.ok ((demoPriceDf.take 3).drop 0) ∧
    demoFoldTest = (demoPriceDf.take 3).drop 1 ∧
    demoFoldPred.map Prod.fst = ((demoPriceDf.take 3).drop 1).map Prod.fst :=
  C4_slice_bounds demoPriceDf demoPredFold 1 2 1 2 rfl rfl rfl rfl (by decide) (by decide)
    demoFoldPred demoFoldTest rfl

/-- One fold-loop iteration succeeds: the prediction artifact exists and
parses, and the test artifact exists and parses. -/
def foldStepOk (store : Store) (model : Model) (model_name coin time_frame : String)
    (vcols : Option (List String)) (j : Nat) : Bool :=
  match store.predFile model model_name coin time_frame j, vcols with
  | some predCsv, some cols =>
    match fromDataframe predCsv "time" cols with
    | Except.ok _ =>
      match store.testFile model model_name coin time_frame j with
      | some testCsv =>
        match fromDataframe testCsv "date" cols with
        | Except.ok _ => true
        | Except.error _ => false
      | none => false
    | Except.error _ => false
  | _, _ => false

/-- When every fold before `k` loads successfully and fold `k`'s prediction
artifact is missing, the fold loop returns the sentinel. -/
theorem loadFolds_sentinel (rmseFn : TS → TS → ℝ) (store : Store) (model : Model)
    (mn c tf : String) (vcols : Option (List String)) :
    ∀ (l1 : List Nat) (k : Nat) (l2 : List Nat),
      (∀ j ∈ l1, foldStepOk store model mn c tf vcols j = true) →
      store.predFile model mn c tf k = none →
      loadFolds rmseFn store model mn c tf vcols (l1 ++ k :: l2) = Except.ok none
  | [], k, l2, _, hk => by
    rw [List.nil_append, loadFolds, hk]
  | j :: l1, k, l2, hok, hk => by
    have hj := hok j (List.mem_cons_self _ _)
    unfold foldStepOk at hj
    cases hpred : store.predFile model mn c tf j with
    | none => rw [hpred] at hj; simp at hj
    | some predCsv =>
      rw [hpred] at hj
      cases hvc : vcols with
      | none => rw [hvc] at hj; simp at hj
      | some cols =>
        subst hvc
        simp only [] at hj
        cases hfp : fromDataframe predCsv "time" cols with
        | error e => rw [hfp] at hj; simp at hj
        | ok pred =>
          rw [hfp] at hj
          simp only [] at hj
          cases htf : store.testFile model mn c tf j with
          | none => rw [htf] at hj; simp at hj
          | some testCsv =>
            rw [htf] at hj
            simp only [] at hj
            cases hft : fromDataframe testCsv "date" cols with
            | error e => rw [hft] at hj; simp at hj
            | ok test =>
              have ih := loadFolds_sentinel rmseFn store model mn c tf (some cols) l1 k l2
                (fun x hx => hok x (List.mem_cons_of_mem _ hx)) hk
              rw [List.cons_append, loadFolds, hpred]
              simp only []
              rw [hfp]
              simp only []
              rw [htf]
              simp only []
              rw [hft]
              simp only []
              rw [ih]

/-- Claim C2 counterexample: with every prediction artifact present but the
test artifacts missing, `get_predictions` raises FileNotFoundError instead of
returning the unavailable sentinel — only the prediction path is
existence-checked. -/
theorem C2_counterexample :
    demoStoreNoTest.testFile Model.log_returns_model "m" "c" "t" 0 = none ∧
    get_predictions rmse0 demoStoreNoTest Model.log_returns_model "m" "c" "t" true =
      Except.error PyErr.fileNotFound ∧
    isUnavailable (get_predictions rmse0 demoStoreNoTest Model.log_returns_model
      "m" "c" "t" true) = false :=
  ⟨rfl, rfl, rfl⟩

/-- Claim C2 as amended: if the prediction artifact of some fold `k < 5` is
missing and every earlier fold loads successfully, `get_predictions` returns
the unavailable sentinel `(None, None, None)` for all three outputs — never a
list of fewer than 5 folds. (A missing test artifact with its prediction
present instead raises a file-read fault, per the counterexample.) -/
theorem C2_missing_pred_gives_sentinel (rmseFn : TS → TS → ℝ) (store : Store)
    (model : Model) (mn c tf : String) (concatenated : Bool) (k : Nat) (hk : k < 5)
    (hmiss : store.predFile model mn c tf k = none)
    (hprev : ∀ j < k, foldStepOk store model mn c tf (value_cols model) j = true) :
    get_predictions rmseFn store model mn c tf concatenated =
      Except.ok GetPredResult.unavailable := by
  have hload : loadFolds rmseFn store model mn c tf (value_cols model) (List.range 5) =
      Except.ok none := by
    interval_cases k
    · exact loadFolds_sentinel rmseFn store model mn c tf _ [] 0 [1, 2, 3, 4]
        (by intro j hj; simp at hj) hmiss
    · exact loadFolds_sentinel rmseFn store model mn c tf _ [0] 1 [2, 3, 4]
        (by intro j hj; simp at hj; subst hj; exact hprev 0 (by omega)) hmiss
    · exact loadFolds_sentinel rmseFn store model mn c tf _ [0, 1] 2 [3, 4]
        (by intro j hj; simp at hj
            rcases hj with rfl | rfl <;> exact hprev _ (by omega)) hmiss
    · exact loadFolds_sentinel rmseFn store model mn c tf _ [0, 1, 2] 3 [4]
        (by intro j hj; simp at hj
            rcases hj with rfl | rfl | rfl <;> exact hprev _ (by omega)) hmiss
    · exact loadFolds_sentinel rmseFn store model mn c tf _ [0, 1, 2, 3] 4 []
        (by intro j hj; simp at hj
            rcases hj with rfl | rfl | rfl | rfl <;> exact hprev _ (by omega)) hmiss
  unfold get_predictions
  rw [hload]

/-- Witness for C2 as amended: the empty store, fold 0's prediction missing. -/
theorem C2_missing_pred_gives_sentinel_witness :
    get_predictions rmse0 demoStoreNoPred Model.log_returns_model "m" "c" "t" true =
      Except.ok GetPredResult.unavailable :=
  C2_missing_pred_gives_sentinel rmse0 demoStoreNoPred Model.log_returns_model "m" "c" "t"
    true 0 (by decide) rfl (fun j hj => absurd hj (by omega))

/-- Inversion of a successful fold-loop step: a successful load of
`period :: rest` is a successful load of `rest` with the fold's parsed
prediction, test and RMSE consed in front. -/
theorem loadFolds_cons_inv (rmseFn : TS → TS → ℝ) (store : Store) (model : Model)
    (mn c tf : String) (vcols : Option (List String)) (period : Nat) (rest : List Nat)
    (ps ts : List TS) (rs : List ℝ)
    (h : loadFolds rmseFn store model mn c tf vcols (period :: rest) =
      Except.ok (some (ps, ts, rs))) :
    ∃ pred test ps' ts' rs',
      loadFolds rmseFn store model mn c tf vcols rest = Except.ok (some (ps', ts', rs')) ∧
      ps = pred :: ps' ∧ ts = test :: ts' ∧ rs = rmseFn test pred :: rs' := by
  rw [loadFolds] at h
  cases hpred : store.predFile model mn c tf period with
  | none => rw [hpred] at h; simp at h
  | some predCsv =>
    rw [hpred] at h
    simp only [] at h
    cases hvc : vcols with
    | none => subst hvc; simp at h
    | some cols =>
      subst hvc
      simp only [] at h
      cases hfp : fromDataframe predCsv "time" cols with
      | error e => rw [hfp] at h; simp at h
      | ok pred =>
        rw [hfp] at h
        simp only [] at h
        cases htf : store.testFile model mn c tf period with
        | none => rw [htf] at h; simp at h
        | some testCsv =>
          rw [htf] at h
          simp only [] at h
          cases hft : fromDataframe testCsv "date" cols with
          | error e => rw [hft] at h; simp at h
          | ok test =>
            rw [hft] at h
            simp only [] at h
            cases hrec : loadFolds rmseFn store model mn c tf (some cols) rest with
            | error e => rw [hrec] at h; simp at h
            | ok o =>
              rw [hrec] at h
              cases o with
              | none => simp at h
              | some trip =>
                obtain ⟨ps', ts', rs'⟩ := trip
                simp only [Except.ok.injEq, Option.some.injEq, Prod.mk.injEq] at h
                obtain ⟨h1, h2, h3⟩ := h
                exact ⟨pred, test, ps', ts', rs', rfl, h1.symm, h2.symm, h3.symm⟩

/-- A successful fold loop returns exactly one prediction, one test and one
RMSE per requested fold — never a partial list. -/
theorem loadFolds_lengths (rmseFn : TS → TS → ℝ) (store : Store) (model : Model)
    (mn c tf : String) (vcols : Option (List String)) :
    ∀ (l : List Nat) (ps ts : List TS) (rs : List ℝ),
      loadFolds rmseFn store model mn c tf vcols l = Except.ok (some (ps, ts, rs)) →
      ps.length = l.length ∧ ts.length = l.length ∧ rs.length = l.length
  | [], ps, ts, rs, h => by
    rw [loadFolds] at h
    simp only [Except.ok.injEq, Option.some.injEq, Prod.mk.injEq] at h
    obtain ⟨h1, h2, h3⟩ := h
    rw [← h1, ← h2, ← h3]
    simp
  | period :: rest, ps, ts, rs, h => by
    obtain ⟨pred, test, ps', ts', rs', hrec, rfl, rfl, rfl⟩ :=
      loadFolds_cons_inv rmseFn store model mn c tf vcols period rest ps ts rs h
    obtain ⟨l1, l2, l3⟩ :=
      loadFolds_lengths rmseFn store model mn c tf vcols rest ps' ts' rs' hrec
    simp [l1, l2, l3]

/-- The five demo fold series (predictions and tests parse identically). -/
def demoFolds : List TS := [demoTS 0, demoTS 1, demoTS 2, demoTS 3, demoTS 4]

/-- Claim C5 counterexample: for the non-ensemble log-return family with
non-concatenated output requested, the tests component of the result is the
single first-fold series, not a list of 5 per-fold test series. -/
theorem C5_counterexample :
    Model.log_returns_model ≠ Model.extended_model ∧
    get_predictions rmse0 demoStore Model.log_returns_model "m" "c" "t" false =
      Except.ok (GetPredResult.out (PredOut.listOut demoFolds (demoTS 0) [0, 0, 0, 0, 0])) :=
  ⟨by decide, rfl⟩

/-- Claim C5 as amended: on a successful 5-fold load, when the family is the
ensemble family or non-concatenated output was requested, the result is the
list of 5 per-fold predictions together with only the first fold's test
series (in every case of this branch); otherwise both predictions and tests
are concatenated in fold order. -/
theorem C5_output_shaping (rmseFn : TS → TS → ℝ) (store : Store) (model : Model)
    (mn c tf : String) (concatenated : Bool) (ps ts' : List TS) (t : TS) (rs : List ℝ)
    (hload : loadFolds rmseFn store model mn c tf (value_cols model) (List.range 5) =
      Except.ok (some (ps, t :: ts', rs))) :
    ps.length = 5 ∧
    ((model = Model.extended_model ∨ concatenated = false) →
      get_predictions rmseFn store model mn c tf concatenated =
        Except.ok (GetPredResult.out (PredOut.listOut ps t rs))) ∧
    ((model ≠ Model.extended_model ∧ concatenated = true) →
      get_predictions rmseFn store model mn c tf concatenated =
        Except.ok (GetPredResult.out
          (PredOut.concatOut (concatenate ps) (concatenate (t :: ts')) rs))) := by
  have hlen := (loadFolds_lengths rmseFn store model mn c tf (value_cols model)
    (List.range 5) ps (t :: ts') rs hload).1
  refine ⟨by simpa using hlen, ?_, ?_⟩
  · intro hcase
    unfold get_predictions
    rw [hload]
    simp only []
    rw [if_neg (by rcases hcase with h | h
                   · intro hand; exact hand.1 h
                   · intro hand; rw [h] at hand; exact absurd hand.2 (by simp))]
  · intro hcase
    unfold get_predictions
    rw [hload]
    simp only []
    rw [if_pos hcase]

/-- Witness for C5 as amended, exercising the concatenating branch on the
demo store. -/
theorem C5_output_shaping_witness :
    get_predictions rmse0 demoStore Model.log_returns_model "m" "c" "t" true =
      Except.ok (GetPredResult.out (PredOut.concatOut (concatenate demoFolds)
        (concatenate (demoTS 0 :: [demoTS 1, demoTS 2, demoTS 3, demoTS 4]))
        [0, 0, 0, 0, 0])) :=
  (C5_output_shaping rmse0 demoStore Model.log_returns_model "m" "c" "t" true
    demoFolds [demoTS 1, demoTS 2, demoTS 3, demoTS 4] (demoTS 0) [0, 0, 0, 0, 0]
    rfl).2.2 ⟨by decide, rfl⟩

/-- Claim C10: with all 5 fold pairs present (a successful load), each fold
chronologically ordered and the folds in increasing order (fold 0 first), the
concatenated prediction series returned by `get_predictions` has length equal
to the sum of the 5 fold lengths and strictly increasing timestamps across
every concatenation boundary. -/
theorem C10_concatenation (rmseFn : TS → TS → ℝ) (store : Store) (model : Model)
    (mn c tf : String) (ps ts : List TS) (rs : List ℝ)
    (hload : loadFolds rmseFn store model mn c tf (value_cols model) (List.range 5) =
      Except.ok (some (ps, ts, rs)))
    (hext : model ≠ Model.extended_model)
    (hne : [] ∉ ps.map tsTimes)
    (hchain : ∀ l ∈ ps.map tsTimes, l.Chain' (fun a b => a < b))
    (hbound : (ps.map tsTimes).Chain'
      (fun l1 l2 => ∀ x ∈ l1.getLast?, ∀ y ∈ l2.head?, x < y)) :
    get_predictions rmseFn store model mn c tf true =
      Except.ok (GetPredResult.out
        (PredOut.concatOut (concatenate ps) (concatenate ts) rs)) ∧
    (concatenate ps).points.length = (ps.map (fun s => s.points.length)).sum ∧
    (tsTimes (concatenate ps)).Chain' (fun a b => a < b) := by
  refine ⟨?_, ?_, ?_⟩
  · unfold get_predictions
    rw [hload]
    simp only []
    rw [if_pos ⟨hext, trivial⟩]
  · simp [concatenate, List.length_flatten, List.map_map]
    rfl
  · have heq : tsTimes (concatenate ps) = (ps.map tsTimes).flatten := by
      simp only [tsTimes, concatenate, List.map_flatten, List.map_map]
      rfl
    rw [heq]
    exact (List.chain'_flatten hne).mpr ⟨hchain, hbound⟩

/-- Witness for C10 on the demo store: fold times [0,1], [2,3], [4,5], [6,7],
[8,9]. -/
theorem C10_concatenation_witness :
    get_predictions rmse0 demoStore Model.log_returns_model "m" "c" "t" true =
      Except.ok (GetPredResult.out
        (PredOut.concatOut (concatenate demoFolds) (concatenate demoFolds)
          [0, 0, 0, 0, 0])) ∧
    (concatenate demoFolds).points.length =
      (demoFolds.map (fun s => s.points.length)).sum ∧
    (tsTimes (concatenate demoFolds)).Chain' (fun a b => a < b) :=
  C10_concatenation rmse0 demoStore Model.log_returns_model "m" "c" "t"
    demoFolds demoFolds [0, 0, 0, 0, 0] rfl (by decide) (by decide)
    (by simp [demoFolds, demoTS, tsTimes, List.chain'_cons])
    (by simp [demoFolds, demoTS, tsTimes, List.chain'_cons])

/-- A family outside both `value_cols` lists never loads successfully: the
first fold either hits the missing-prediction sentinel or raises
UnboundLocalError at the first use of the unassigned variable. -/
theorem unknownFamily_no_success (rmseFn : TS → TS → ℝ) (store : Store) (model : Model)
    (mn c tf : String) (concatenated : Bool) (hvc : value_cols model = none) :
    isSuccessOut (get_predictions rmseFn store model mn c tf concatenated) = false := by
  unfold get_predictions
  rw [hvc]
  have h5 : List.range 5 = 0 :: [1, 2, 3, 4] := rfl
  rw [h5, loadFolds]
  cases hpred : store.predFile model mn c tf 0 with
  | none => rfl
  | some predCsv => rfl

/-- Claim C6: families in {log-return, derived-log, scaled, scaled-to-log,
raw-to-log} select the single value column "log returns", families in {raw,
derived-to-raw, scaled-to-raw} select "close", and any other family never
produces a successful load. -/
theorem C6_value_column_selection (model : Model) (rmseFn : TS → TS → ℝ) (store : Store)
    (mn c tf : String) (concatenated : Bool) :
    (model ∈ [Model.log_returns_model, Model.extended_model, Model.scaled_model,
        Model.scaled_to_log_model, Model.raw_to_log_model] →
      value_cols model = some ["log returns"]) ∧
    (model ∈ [Model.raw_model, Model.extended_to_raw_model, Model.scaled_to_raw_model] →
      value_cols model = some ["close"]) ∧
    (model ∉ [Model.log_returns_model, Model.extended_model, Model.scaled_model,
        Model.scaled_to_log_model, Model.raw_to_log_model, Model.raw_model,
        Model.extended_to_raw_model, Model.scaled_to_raw_model] →
      isSuccessOut (get_predictions rmseFn store model mn c tf concatenated) = false) := by
  refine ⟨?_, ?_, ?_⟩
  · intro h
    cases model <;> first | rfl | exact absurd h (by decide)
  · intro h
    cases model <;> first | rfl | exact absurd h (by decide)
  · intro h
    apply unknownFamily_no_success
    cases model <;> first | rfl | exact absurd (by decide) h

/-- Witness for C6 at three concrete families: a log-return-column family, a
close-column family, and the one family in neither list
(`log_to_raw_model`). -/
theorem C6_value_column_selection_witness :
    value_cols Model.scaled_model = some ["log returns"] ∧
    value_cols Model.raw_model = some ["close"] ∧
    isSuccessOut (get_predictions rmse0 demoStore Model.log_to_raw_model
      "m" "c" "t" true) = false :=
  ⟨(C6_value_column_selection Model.scaled_model rmse0 demoStore "m" "c" "t" true).1
      (by decide),
   (C6_value_column_selection Model.raw_model rmse0 demoStore "m" "c" "t" true).2.1
      (by decide),
   (C6_value_column_selection Model.log_to_raw_model rmse0 demoStore "m" "c" "t" true).2.2
      (by decide)⟩

/-- The per-model loop keeps exactly the catalog entries whose load
succeeded, in catalog order, when no load raises a fault. -/
theorem amp_loop_filter (rmseFn : TS → TS → ℝ) (store : Store) (model : Model)
    (coin tf : String) :
    ∀ l : List String,
      (∀ mn ∈ l, isErr (get_predictions rmseFn store model mn coin tf true) = false) →
      ∃ d, amp_loop rmseFn store model coin tf l = Except.ok d ∧
        d.map Prod.fst = l.filter
          (fun mn => isSuccessOut (get_predictions rmseFn store model mn coin tf true))
  | [], _ => ⟨[], rfl, rfl⟩
  | mn :: rest, hok => by
    obtain ⟨d, hd, hnames⟩ := amp_loop_filter rmseFn store model coin tf rest
      (fun x hx => hok x (List.mem_cons_of_mem _ hx))
    have hmn := hok mn (List.mem_cons_self _ _)
    rw [amp_loop]
    cases hg : get_predictions rmseFn store model mn coin tf true with
    | error e => rw [hg] at hmn; simp [isErr] at hmn
    | ok r =>
      simp only []
      rw [hd]
      simp only []
      cases r with
      | unavailable =>
        refine ⟨d, rfl, ?_⟩
        rw [hnames, List.filter_cons]
        simp [hg, isSuccessOut]
      | out o =>
        refine ⟨(mn, o) :: d, rfl, ?_⟩
        rw [List.filter_cons]
        simp [hg, isSuccessOut, hnames]

/-- Claim C9: `all_model_predictions` evaluates every model of the applicable
catalog (ML-only for the ensemble family, full otherwise), skips exactly the
models whose load returned the sentinel, and returns a per-model dictionary
and a summary table whose columns are exactly the models that succeeded. -/
theorem C9_exact_successes (rmseFn : TS → TS → ℝ) (store : Store)
    (all_models ml_models : List String) (model : Model) (coin tf : String)
    (hnoerr : ∀ mn ∈ (if model = Model.extended_model then ml_models else all_models),
      isErr (get_predictions rmseFn store model mn coin tf true) = false) :
    modelNamesOf (all_model_predictions rmseFn store all_models ml_models model coin tf) =
      some ((if model = Model.extended_model then ml_models else all_models).filter
        (fun mn => isSuccessOut (get_predictions rmseFn store model mn coin tf true))) ∧
    tableColumnsOf (all_model_predictions rmseFn store all_models ml_models model coin tf) =
      modelNamesOf (all_model_predictions rmseFn store all_models ml_models model coin tf) := by
  obtain ⟨d, hd, hnames⟩ := amp_loop_filter rmseFn store model coin tf _ hnoerr
  unfold all_model_predictions
  simp only []
  rw [hd]
  simp only [modelNamesOf, tableColumnsOf]
  refine ⟨by rw [hnames], ?_⟩
  simp [List.map_map]

/-- Witness for C9: catalog ["A", "B", "C"] on the store where "B" has no
artifacts — the dictionary and table contain exactly ["A", "C"]. -/
theorem C9_exact_successes_witness :
    modelNamesOf (all_model_predictions rmse0 demoStoreSkip ["A", "B", "C"] []
        Model.log_returns_model "c" "t") =
      some (["A", "B", "C"].filter
        (fun mn => isSuccessOut (get_predictions rmse0 demoStoreSkip
          Model.log_returns_model mn "c" "t" true))) ∧
    tableColumnsOf (all_model_predictions rmse0 demoStoreSkip ["A", "B", "C"] []
        Model.log_returns_model "c" "t") =
      modelNamesOf (all_model_predictions rmse0 demoStoreSkip ["A", "B", "C"] []
        Model.log_returns_model "c" "t") ∧
    ["A", "B", "C"].filter
        (fun mn => isSuccessOut (get_predictions rmse0 demoStoreSkip
          Model.log_returns_model mn "c" "t" true)) = ["A", "C"] := by
  have h := C9_exact_successes rmse0 demoStoreSkip ["A", "B", "C"] []
    Model.log_returns_model "c" "t" (by decide)
  exact ⟨h.1, h.2, rfl⟩

end PricePrediction
